import Mathlib

/-!
Shallow embedding of the native interop façade
(`src/libs/Microsoft.MixedReality.WebRTC.Native/src/interop/interop_api.cpp`).

Modelling conventions:
* A C pointer argument or handle is `Option α` (`none` = null).
* Engine-side behaviour that lives outside this translation unit
  (`PeerConnection`, `DataChannel`, the WebRTC factory) is passed in as
  explicit parameters; each façade function additionally returns the trace
  of engine calls it performed, so "performs no side effect" is the
  statement that the trace is empty.
* C `double` fields that are only copied, compared, or rounded are `ℚ`.
* Machine integers never overflow on the paths modelled here, so they are
  `Nat` / `Int`.
-/

/-- Outcome codes of `mrsResult` (Result::kSuccess etc.). -/
inductive mrsResult
  | kSuccess
  | kInvalidParameter
  | kInvalidNativeHandle
  | kInvalidOperation
  | kNotFound
  | kUnknownError
  | kWrongThread
  deriving DecidableEq, Repr

/-- `mrsBool` of the interop layer. -/
inductive mrsBool
  | kFalse
  | kTrue
  deriving DecidableEq, Repr

/-- `IsStringNullOrEmpty`: null pointer or first byte 0. -/
def isStringNullOrEmpty : Option String → Bool
  | none => true
  | some s => s = ""

/-- Engine interactions performed by `mrsPeerConnectionAddLocalAudioTrack`. -/
inductive AudioEngineCall
  | getExistingFactory
  | createAudioSource
  | createAudioTrack
  | addLocalAudioTrack
  deriving DecidableEq, Repr

/-- Outcomes of the engine collaborators used by
`mrsPeerConnectionAddLocalAudioTrack` (global factory lookup, audio
source/track creation, `PeerConnection::AddLocalAudioTrack`). -/
structure AudioEngine where
  factoryExists : Bool
  createAudioSourceOk : Bool
  createAudioTrackOk : Bool
  addLocalAudioTrackOk : Bool
  deriving DecidableEq, Repr

/-- `mrsPeerConnectionAddLocalAudioTrack`.  The whole body is guarded by
`if (auto peer = static_cast<PeerConnection*>(peerHandle))`; when the handle
is null this falls through to the final `return Result::kUnknownError`. -/
def mrsPeerConnectionAddLocalAudioTrack (eng : AudioEngine)
    (peerHandle : Option Nat) : mrsResult × List AudioEngineCall :=
  match peerHandle with
  | some _ =>
    if !eng.factoryExists then
      (.kInvalidOperation, [.getExistingFactory])
    else if !eng.createAudioSourceOk then
      (.kUnknownError, [.getExistingFactory, .createAudioSource])
    else if !eng.createAudioTrackOk then
      (.kUnknownError, [.getExistingFactory, .createAudioSource, .createAudioTrack])
    else if eng.addLocalAudioTrackOk then
      (.kSuccess,
        [.getExistingFactory, .createAudioSource, .createAudioTrack, .addLocalAudioTrack])
    else
      (.kUnknownError,
        [.getExistingFactory, .createAudioSource, .createAudioTrack, .addLocalAudioTrack])
  | none => (.kUnknownError, [])

/-- `mrsDataChannelSendMessage`; `sendOk` models `DataChannel::Send`, the
trace records the byte buffers handed to the engine. -/
def mrsDataChannelSendMessage (sendOk : List Nat → Bool)
    (dataChannelHandle : Option Nat) (data : List Nat) :
    mrsResult × List (List Nat) :=
  match dataChannelHandle with
  | none => (.kInvalidNativeHandle, [])
  | some _ => (if sendOk data then .kSuccess else .kUnknownError, [data])

/-- `mrsPeerConnectionIsLocalAudioTrackEnabled`; `isEnabled` models
`PeerConnection::IsLocalAudioTrackEnabled`, the trace records the peers
queried. -/
def mrsPeerConnectionIsLocalAudioTrackEnabled (isEnabled : Nat → Bool)
    (peerHandle : Option Nat) : mrsBool × List Nat :=
  match peerHandle with
  | none => (.kFalse, [])
  | some p => (if isEnabled p then .kTrue else .kFalse, [p])

/-- Outcomes of the engine collaborators used by
`mrsPeerConnectionAddLocalVideoTrack`: the global factory lookup, the
signaling-thread invoke of `BuiltinVideoCaptureDeviceTrackSource::Create`
(result code plus the `video_source` it may leave), the factory call
`CreateVideoTrack`, and `PeerConnection::AddLocalVideoTrack` (the wrapper
it returns on success). -/
structure VideoTrackEngine where
  factoryExists : Bool
  createSourceRes : mrsResult
  createSourceOut : Option Nat
  createVideoTrackOut : Option Nat
  addLocalVideoTrackOut : Option Nat
  deriving DecidableEq, Repr

/-- `mrsPeerConnectionAddLocalVideoTrack`.  `trackHandleOut` is the output
location: `none` models a null `LocalVideoTrackHandle*`, `some prior` a
valid pointer currently holding `prior`.  The second component of the
result is the final contents of that location. -/
def mrsPeerConnectionAddLocalVideoTrack (eng : VideoTrackEngine)
    (peerHandle : Option Nat) (trackName : Option String)
    (trackHandleOut : Option (Option Nat)) :
    mrsResult × Option (Option Nat) :=
  if isStringNullOrEmpty trackName then
    (.kInvalidParameter, trackHandleOut)
  else
    match trackHandleOut with
    | none => (.kInvalidParameter, none)
    | some _ =>
      -- *trackHandle = nullptr;
      match peerHandle with
      | none => (.kInvalidNativeHandle, some none)
      | some _ =>
        if !eng.factoryExists then (.kInvalidOperation, some none)
        else if eng.createSourceRes ≠ .kSuccess then (eng.createSourceRes, some none)
        else
          match eng.createSourceOut with
          | none => (.kUnknownError, some none)
          | some _ =>
            match eng.createVideoTrackOut with
            | none => (.kUnknownError, some none)
            | some _ =>
              match eng.addLocalVideoTrackOut with
              | some wrapper => (.kSuccess, some (some wrapper))
              | none => (.kUnknownError, some none)

/-- `mrsDataChannelConfig`: integer id, label (null allowed), and the
`kOrdered` / `kReliable` bits of the flags field. -/
structure mrsDataChannelConfig where
  id : Int
  label : Option String
  ordered : Bool
  reliable : Bool
  deriving DecidableEq, Repr

/-- One call to `PeerConnection::AddDataChannel` as the engine sees it. -/
structure DataChannelEngineCall where
  id : Int
  label : String
  ordered : Bool
  reliable : Bool
  deriving DecidableEq, Repr

/-- `mrsPeerConnectionAddDataChannel`.  `addDataChannel` models
`PeerConnection::AddDataChannel` (a `DataChannel` handle on success, a
specific engine error code otherwise); the callback attachment on success
carries no observable state here.  `dataChannelHandleOut` is the output
location as in `mrsPeerConnectionAddLocalVideoTrack`; the third component
of the result is the trace of engine creation calls. -/
def mrsPeerConnectionAddDataChannel
    (addDataChannel : Int → String → Bool → Bool → Except mrsResult Nat)
    (peerHandle : Option Nat) (dataChannelInteropHandle : Option Nat)
    (config : mrsDataChannelConfig)
    (dataChannelHandleOut : Option (Option Nat)) :
    mrsResult × Option (Option Nat) × List DataChannelEngineCall :=
  match dataChannelHandleOut, dataChannelInteropHandle with
  | none, _ => (.kInvalidParameter, dataChannelHandleOut, [])
  | some _, none => (.kInvalidParameter, dataChannelHandleOut, [])
  | some _, some _ =>
    -- *dataChannelHandleOut = nullptr;
    match peerHandle with
    | none => (.kInvalidNativeHandle, some none, [])
    | some _ =>
      let label := config.label.getD ""
      let call : DataChannelEngineCall :=
        ⟨config.id, label, config.ordered, config.reliable⟩
      match addDataChannel config.id label config.ordered config.reliable with
      | .ok dc => (.kSuccess, some (some dc), [call])
      | .error e => (e, some none, [call])

/-!
Statistics records of an `RTCStatsReport`.  An `Option` field models an
`RTCStatsMember` that the façade tests with `is_defined()` or dereferences
without testing; dereferencing an undefined member yields the member's
value-initialized default (the release-build behaviour), written `getD`.
Fields the façade only ever dereferences are plain values.
-/

/-- `webrtc::RTCOutboundRTPStreamStats`, the members the façade reads. -/
structure RTCOutboundRTPStreamStats where
  timestampUs : Int
  kind : String
  trackId : Option String
  packetsSent : Nat
  bytesSent : Nat
  framesEncoded : Nat
  deriving DecidableEq, Repr

/-- `webrtc::RTCInboundRTPStreamStats`, the members the façade reads. -/
structure RTCInboundRTPStreamStats where
  timestampUs : Int
  kind : String
  trackId : Option String
  packetsReceived : Nat
  bytesReceived : Nat
  framesDecoded : Nat
  deriving DecidableEq, Repr

/-- `webrtc::RTCMediaStreamTrackStats`, the members the façade reads;
`id` is the stats-object id (`track_stats.id()`), the join key. -/
structure RTCMediaStreamTrackStats where
  id : String
  timestampUs : Int
  trackIdentifier : String
  kind : String
  remoteSource : Bool
  audioLevel : Option ℚ
  totalAudioEnergy : ℚ
  totalSamplesDuration : ℚ
  totalSamplesReceived : Option Nat
  framesSent : Option Nat
  hugeFramesSent : Option Nat
  framesReceived : Option Nat
  framesDropped : Option Nat
  deriving DecidableEq, Repr

/-- `webrtc::RTCDataChannelStats`, the members the façade reads. -/
structure RTCDataChannelStats where
  timestampUs : Int
  dataChannelId : Int
  messagesSent : Nat
  bytesSent : Nat
  messagesReceived : Nat
  bytesReceived : Nat
  deriving DecidableEq, Repr

/-- `webrtc::RTCTransportStats`, the members the façade reads. -/
structure RTCTransportStats where
  timestampUs : Int
  bytesSent : Nat
  bytesReceived : Nat
  deriving DecidableEq, Repr

/-- One heterogeneous record of a stats report, tagged by `stats.type()`
("outbound-rtp", "inbound-rtp", "track", "data-channel", "transport"). -/
inductive RTCStats
  | outboundRtp : RTCOutboundRTPStreamStats → RTCStats
  | inboundRtp : RTCInboundRTPStreamStats → RTCStats
  | track : RTCMediaStreamTrackStats → RTCStats
  | dataChannel : RTCDataChannelStats → RTCStats
  | transport : RTCTransportStats → RTCStats
  deriving DecidableEq, Repr

/-- Output record `mrsDataChannelStats`. -/
structure mrsDataChannelStats where
  dataChannelTimestampUs : Int := 0
  dataChannelId : Int := 0
  messagesSent : Nat := 0
  bytesSent : Nat := 0
  messagesReceived : Nat := 0
  bytesReceived : Nat := 0
  deriving DecidableEq, Repr

/-- Output record `mrsAudioSenderStats`; defaults model the
value-initialized `T{}` a fresh `FindOrInsert` slot starts from. -/
structure mrsAudioSenderStats where
  rtpStatsTimestampUs : Int := 0
  packetsSent : Nat := 0
  bytesSent : Nat := 0
  trackStatsTimestampUs : Int := 0
  trackIdentifier : String := ""
  audioLevel : ℚ := 0
  totalAudioEnergy : ℚ := 0
  totalSamplesDuration : ℚ := 0
  deriving DecidableEq, Repr

/-- Output record `mrsAudioReceiverStats`. -/
structure mrsAudioReceiverStats where
  rtpStatsTimestampUs : Int := 0
  packetsReceived : Nat := 0
  bytesReceived : Nat := 0
  trackStatsTimestampUs : Int := 0
  trackIdentifier : String := ""
  audioLevel : ℚ := 0
  totalAudioEnergy : ℚ := 0
  totalSamplesReceived : Nat := 0
  totalSamplesDuration : ℚ := 0
  deriving DecidableEq, Repr

/-- Output record `mrsVideoSenderStats`. -/
structure mrsVideoSenderStats where
  rtpStatsTimestampUs : Int := 0
  packetsSent : Nat := 0
  bytesSent : Nat := 0
  framesEncoded : Nat := 0
  trackStatsTimestampUs : Int := 0
  trackIdentifier : String := ""
  framesSent : Nat := 0
  hugeFramesSent : Nat := 0
  deriving DecidableEq, Repr

/-- Output record `mrsVideoReceiverStats`. -/
structure mrsVideoReceiverStats where
  rtpStatsTimestampUs : Int := 0
  packetsReceived : Nat := 0
  bytesReceived : Nat := 0
  framesDecoded : Nat := 0
  trackStatsTimestampUs : Int := 0
  trackIdentifier : String := ""
  framesReceived : Nat := 0
  framesDropped : Nat := 0
  deriving DecidableEq, Repr

/-- Output record `mrsTransportStats`. -/
structure mrsTransportStats where
  timestampUs : Int := 0
  bytesSent : Nat := 0
  bytesReceived : Nat := 0
  deriving DecidableEq, Repr

/-- `FindOrInsert`: find the first pair with the given key in the ordered
collection and update it in place, or append a fresh value-initialized
slot and update that. -/
def FindOrInsert {T : Type} (empty : T) (id : String) (upd : T → T) :
    List (String × T) → List (String × T)
  | [] => [(id, upd empty)]
  | p :: rest =>
    if p.1 = id then (p.1, upd p.2) :: rest
    else p :: FindOrInsert empty id upd rest

/-- One iteration of the `AudioSenderStats` loop of
`mrsStatsReportGetObjects`: outbound RTP-stream records of kind "audio"
with a defined track id, and track records of kind "audio" that are not
remote-source, are merged into `pending_stats` keyed by track id. -/
def audioSenderStep (pending : List (String × mrsAudioSenderStats)) :
    RTCStats → List (String × mrsAudioSenderStats)
  | .outboundRtp o =>
    match o.trackId with
    | some tid =>
      if o.kind = "audio" then
        FindOrInsert {} tid
          (fun d => { d with rtpStatsTimestampUs := o.timestampUs,
                             packetsSent := o.packetsSent,
                             bytesSent := o.bytesSent }) pending
      else pending
    | none => pending
  | .track t =>
    if t.kind = "audio" ∧ t.remoteSource = false then
      FindOrInsert {} t.id
        (fun d => { d with trackStatsTimestampUs := t.timestampUs,
                           trackIdentifier := t.trackIdentifier,
                           audioLevel := t.audioLevel.getD 0,
                           totalAudioEnergy := t.totalAudioEnergy,
                           totalSamplesDuration := t.totalSamplesDuration })
        pending
    else pending
  | _ => pending

/-- One iteration of the `AudioReceiverStats` loop.  Unlike the sender
branch, the inbound record's track id is dereferenced without an
`is_defined()` check, so an undefined track id joins under the
value-initialized empty string. -/
def audioReceiverStep (pending : List (String × mrsAudioReceiverStats)) :
    RTCStats → List (String × mrsAudioReceiverStats)
  | .inboundRtp i =>
    if i.kind = "audio" then
      FindOrInsert {} (i.trackId.getD "")
        (fun d => { d with rtpStatsTimestampUs := i.timestampUs,
                           packetsReceived := i.packetsReceived,
                           bytesReceived := i.bytesReceived }) pending
    else pending
  | .track t =>
    if t.kind = "audio" ∧ t.remoteSource = true then
      FindOrInsert {} t.id
        (fun d => { d with trackStatsTimestampUs := t.timestampUs,
                           trackIdentifier := t.trackIdentifier,
                           audioLevel := t.audioLevel.getD 0,
                           totalAudioEnergy := t.totalAudioEnergy,
                           totalSamplesReceived := t.totalSamplesReceived.getD 0,
                           totalSamplesDuration := t.totalSamplesDuration })
        pending
    else pending
  | _ => pending

/-- One iteration of the `VideoSenderStats` loop. -/
def videoSenderStep (pending : List (String × mrsVideoSenderStats)) :
    RTCStats → List (String × mrsVideoSenderStats)
  | .outboundRtp o =>
    match o.trackId with
    | some tid =>
      if o.kind = "video" then
        FindOrInsert {} tid
          (fun d => { d with rtpStatsTimestampUs := o.timestampUs,
                             packetsSent := o.packetsSent,
                             bytesSent := o.bytesSent,
                             framesEncoded := o.framesEncoded }) pending
      else pending
    | none => pending
  | .track t =>
    if t.kind = "video" ∧ t.remoteSource = false then
      FindOrInsert {} t.id
        (fun d => { d with trackStatsTimestampUs := t.timestampUs,
                           trackIdentifier := t.trackIdentifier,
                           framesSent := t.framesSent.getD 0,
                           hugeFramesSent := t.hugeFramesSent.getD 0 })
        pending
    else pending
  | _ => pending

/-- One iteration of the `VideoReceiverStats` loop; like the audio
receiver, the inbound track id is dereferenced without a check. -/
def videoReceiverStep (pending : List (String × mrsVideoReceiverStats)) :
    RTCStats → List (String × mrsVideoReceiverStats)
  | .inboundRtp i =>
    if i.kind = "video" then
      FindOrInsert {} (i.trackId.getD "")
        (fun d => { d with rtpStatsTimestampUs := i.timestampUs,
                           packetsReceived := i.packetsReceived,
                           bytesReceived := i.bytesReceived,
                           framesDecoded := i.framesDecoded }) pending
    else pending
  | .track t =>
    if t.kind = "video" ∧ t.remoteSource = true then
      FindOrInsert {} t.id
        (fun d => { d with trackStatsTimestampUs := t.timestampUs,
                           trackIdentifier := t.trackIdentifier,
                           framesReceived := t.framesReceived.getD 0,
                           framesDropped := t.framesDropped.getD 0 })
        pending
    else pending
  | _ => pending

/-- A flat record handed to the `mrsStatsReportGetObjects` callback; one
constructor per requested kind. -/
inductive mrsStatsObject
  | dataChannel : mrsDataChannelStats → mrsStatsObject
  | audioSender : mrsAudioSenderStats → mrsStatsObject
  | audioReceiver : mrsAudioReceiverStats → mrsStatsObject
  | videoSender : mrsVideoSenderStats → mrsStatsObject
  | videoReceiver : mrsVideoReceiverStats → mrsStatsObject
  | transport : mrsTransportStats → mrsStatsObject
  deriving DecidableEq, Repr

/-- `mrsStatsReportGetObjects`.  The report handle is a pointer to the
ordered list of records of the snapshot; the returned list holds the
callback invocations in order (one per emitted record). -/
def mrsStatsReportGetObjects (reportHandle : Option (List RTCStats))
    (statsType : String) : mrsResult × List mrsStatsObject :=
  match reportHandle with
  | none => (.kInvalidNativeHandle, [])
  | some report =>
    if statsType = "DataChannelStats" then
      (.kSuccess, report.filterMap fun s =>
        match s with
        | .dataChannel d => some (.dataChannel
            ⟨d.timestampUs, d.dataChannelId, d.messagesSent, d.bytesSent,
             d.messagesReceived, d.bytesReceived⟩)
        | _ => none)
    else if statsType = "AudioSenderStats" then
      (.kSuccess, (report.foldl audioSenderStep []).map fun p => .audioSender p.2)
    else if statsType = "AudioReceiverStats" then
      (.kSuccess, (report.foldl audioReceiverStep []).map fun p => .audioReceiver p.2)
    else if statsType = "VideoSenderStats" then
      (.kSuccess, (report.foldl videoSenderStep []).map fun p => .videoSender p.2)
    else if statsType = "VideoReceiverStats" then
      (.kSuccess, (report.foldl videoReceiverStep []).map fun p => .videoReceiver p.2)
    else if statsType = "TransportStats" then
      (.kSuccess, report.filterMap fun s =>
        match s with
        | .transport t => some (.transport
            ⟨t.timestampUs, t.bytesSent, t.bytesReceived⟩)
        | _ => none)
    else (.kSuccess, [])

/-- The six kind strings `mrsStatsReportGetObjects` recognizes. -/
def recognizedStatsTypes : List String :=
  ["DataChannelStats", "AudioSenderStats", "AudioReceiverStats",
   "VideoSenderStats", "VideoReceiverStats", "TransportStats"]

/-- Whether a record is one the branch for `statsType` consumes (correct
record type, matching media kind, matching source side, and - for the
sender branches only - a defined track id). -/
def recordMatchesType (statsType : String) (s : RTCStats) : Bool :=
  if statsType = "DataChannelStats" then
    match s with
    | .dataChannel _ => true
    | _ => false
  else if statsType = "AudioSenderStats" then
    match s with
    | .outboundRtp o => o.kind = "audio" && o.trackId.isSome
    | .track t => t.kind = "audio" && !t.remoteSource
    | _ => false
  else if statsType = "AudioReceiverStats" then
    match s with
    | .inboundRtp i => i.kind = "audio"
    | .track t => t.kind = "audio" && t.remoteSource
    | _ => false
  else if statsType = "VideoSenderStats" then
    match s with
    | .outboundRtp o => o.kind = "video" && o.trackId.isSome
    | .track t => t.kind = "video" && !t.remoteSource
    | _ => false
  else if statsType = "VideoReceiverStats" then
    match s with
    | .inboundRtp i => i.kind = "video"
    | .track t => t.kind = "video" && t.remoteSource
    | _ => false
  else if statsType = "TransportStats" then
    match s with
    | .transport _ => true
    | _ => false
  else false

/-- A sample engine configuration in which every collaborator succeeds. -/
def allOkAudioEngine : AudioEngine :=
  { factoryExists := true
    createAudioSourceOk := true
    createAudioTrackOk := true
    addLocalAudioTrackOk := true }

/-- C1 counterexample: `mrsPeerConnectionAddLocalAudioTrack` on a null
peer-connection handle returns unknown-error, not invalid-native-handle
(and not invalid-parameter), so the claimed uniform null-handle contract
fails on this operation. -/
theorem addLocalAudioTrack_nullHandle_not_invalidNativeHandle :
    (mrsPeerConnectionAddLocalAudioTrack allOkAudioEngine none).1 = .kUnknownError
    ∧ (mrsPeerConnectionAddLocalAudioTrack allOkAudioEngine none).1 ≠ .kInvalidNativeHandle
    ∧ (mrsPeerConnectionAddLocalAudioTrack allOkAudioEngine none).1 ≠ .kInvalidParameter := by
  refine ⟨rfl, by decide, by decide⟩

/-- C1 amended: on a null handle neither operation performs any engine
call; `mrsDataChannelSendMessage` returns invalid-native-handle, while
`mrsPeerConnectionAddLocalAudioTrack` returns unknown-error (its null-handle
path falls through to the generic failure return). -/
theorem nullHandle_noSideEffect :
    (∀ eng : AudioEngine,
      mrsPeerConnectionAddLocalAudioTrack eng none = (.kUnknownError, []))
    ∧ (∀ (sendOk : List Nat → Bool) (data : List Nat),
      mrsDataChannelSendMessage sendOk none data = (.kInvalidNativeHandle, [])) := by
  exact ⟨fun _ => rfl, fun _ _ => rfl⟩

/-- A sample video-track engine in which every collaborator succeeds. -/
def allOkVideoEngine : VideoTrackEngine :=
  { factoryExists := true
    createSourceRes := .kSuccess
    createSourceOut := some 1
    createVideoTrackOut := some 2
    addLocalVideoTrackOut := some 3 }

/-- C2 counterexample: `mrsPeerConnectionAddLocalVideoTrack` checks the
track name before zeroing the output handle, so a call failing parameter
validation on an empty track name returns non-success while the output
location still holds its stale prior contents. -/
theorem addLocalVideoTrack_emptyName_keepsStaleHandle :
    mrsPeerConnectionAddLocalVideoTrack allOkVideoEngine (some 1) (some "")
        (some (some 42))
      = (.kInvalidParameter, some (some 42))
    ∧ (.kInvalidParameter : mrsResult) ≠ .kSuccess := by
  exact ⟨rfl, by decide⟩

/-- C2 amended: the output handle is zeroed after the initial parameter
checks (non-empty track name and non-null output pointer for
`mrsPeerConnectionAddLocalVideoTrack`; non-null output pointer and interop
handle for `mrsPeerConnectionAddDataChannel`) but before handle validation
and the operation itself.  Hence once parameter validation passes, every
non-success return leaves null in the output location, while a
parameter-validation failure leaves the location untouched. -/
theorem outputHandle_zeroed_after_parameter_checks :
    (∀ (eng : VideoTrackEngine) (peer : Option Nat) (name : Option String)
        (prior : Option Nat),
      isStringNullOrEmpty name = false →
      (mrsPeerConnectionAddLocalVideoTrack eng peer name (some prior)).1 ≠ .kSuccess →
      (mrsPeerConnectionAddLocalVideoTrack eng peer name (some prior)).2 = some none)
    ∧ (∀ (eng : VideoTrackEngine) (peer : Option Nat) (name : Option String)
        (prior : Option Nat),
      isStringNullOrEmpty name = true →
      mrsPeerConnectionAddLocalVideoTrack eng peer name (some prior)
        = (.kInvalidParameter, some prior))
    ∧ (∀ (addDataChannel : Int → String → Bool → Bool → Except mrsResult Nat)
        (peer : Option Nat) (ih : Nat) (config : mrsDataChannelConfig)
        (prior : Option Nat),
      (mrsPeerConnectionAddDataChannel addDataChannel peer (some ih) config
          (some prior)).1 ≠ .kSuccess →
      (mrsPeerConnectionAddDataChannel addDataChannel peer (some ih) config
          (some prior)).2.1 = some none) := by
  refine ⟨?_, ?_, ?_⟩
  · intro eng peer name prior hname hres
    unfold mrsPeerConnectionAddLocalVideoTrack at *
    rw [hname] at hres ⊢
    simp only [Bool.false_eq_true, if_false]
    cases peer with
    | none => rfl
    | some p =>
      by_cases hf : eng.factoryExists = false
      · simp [hf]
      · simp only [Bool.not_eq_true'] at hf
        by_cases hs : eng.createSourceRes = .kSuccess
        · cases hco : eng.createSourceOut with
          | none => simp [hf, hs, hco]
          | some src =>
            cases hct : eng.createVideoTrackOut with
            | none => simp [hf, hs, hco, hct]
            | some trk =>
              cases hat : eng.addLocalVideoTrackOut with
              | none => simp [hf, hs, hco, hct, hat]
              | some w =>
                exfalso
                apply hres
                simp [hf, hs, hco, hct, hat]
        · simp [hf, hs]
  · intro eng peer name prior hname
    unfold mrsPeerConnectionAddLocalVideoTrack
    rw [hname]
    rfl
  · intro f peer ih config prior hres
    unfold mrsPeerConnectionAddDataChannel at *
    cases peer with
    | none => rfl
    | some p =>
      cases hdc : f config.id (config.label.getD "") config.ordered config.reliable with
      | ok dc =>
        exfalso
        apply hres
        simp [hdc]
      | error e => simp [hdc]

/-- C2 amended, witness: with an all-success engine and invalid (null) peer
handle but valid parameters, the video-track call fails with
invalid-native-handle and leaves null in the output; the empty-name call
leaves the stale value; a failing data-channel creation leaves null. -/
theorem outputHandle_zeroed_after_parameter_checks_witness :
    (mrsPeerConnectionAddLocalVideoTrack allOkVideoEngine none (some "t")
        (some (some 7))).2 = some none
    ∧ mrsPeerConnectionAddLocalVideoTrack allOkVideoEngine none (some "")
        (some (some 7)) = (.kInvalidParameter, some (some 7))
    ∧ (mrsPeerConnectionAddDataChannel
        (fun _ _ _ _ => .error .kUnknownError) (some 1) (some 2)
        ⟨3, some "chan", true, true⟩ (some (some 7))).2.1 = some none := by
  refine ⟨?_, ?_, ?_⟩
  · exact outputHandle_zeroed_after_parameter_checks.1 allOkVideoEngine none
      (some "t") (some 7) (by decide) (by decide)
  · exact outputHandle_zeroed_after_parameter_checks.2.1 allOkVideoEngine none
      (some "") (some 7) (by decide)
  · exact outputHandle_zeroed_after_parameter_checks.2.2
      (fun _ _ _ _ => .error .kUnknownError) (some 1) 2
      ⟨3, some "chan", true, true⟩ (some 7) (by decide)

/-- C9: `mrsPeerConnectionAddDataChannel` treats a null label pointer as
the empty-string label: a call with a null label behaves identically to
one with label `""`, and with valid handles the engine is asked to create
the channel with label `""` (the call is not rejected by the façade's
parameter validation). -/
theorem addDataChannel_nullLabel_emptyString :
    (∀ (addDataChannel : Int → String → Bool → Bool → Except mrsResult Nat)
        (peer ih : Option Nat) (config : mrsDataChannelConfig)
        (out : Option (Option Nat)),
      mrsPeerConnectionAddDataChannel addDataChannel peer ih
          { config with label := none } out
        = mrsPeerConnectionAddDataChannel addDataChannel peer ih
          { config with label := some "" } out)
    ∧ (∀ (addDataChannel : Int → String → Bool → Bool → Except mrsResult Nat)
        (p ih : Nat) (id : Int) (ordered reliable : Bool)
        (prior : Option Nat),
      (mrsPeerConnectionAddDataChannel addDataChannel (some p) (some ih)
          ⟨id, none, ordered, reliable⟩ (some prior)).2.2
        = [⟨id, "", ordered, reliable⟩]) := by
  constructor
  · intro f peer ih config out
    unfold mrsPeerConnectionAddDataChannel
    cases out with
    | none => rfl
    | some prior =>
      cases ih with
      | none => rfl
      | some h =>
        cases peer with
        | none => rfl
        | some p => rfl
  · intro f p ih id ordered reliable prior
    unfold mrsPeerConnectionAddDataChannel
    dsimp only [Option.getD]
    cases hdc : f id "" ordered reliable <;> simp [hdc]

/-- C10: `mrsPeerConnectionIsLocalAudioTrackEnabled` on a null handle
returns `kFalse` and queries no peer; moreover the same `kFalse` is what a
live peer with a disabled track produces, so the two cases are
indistinguishable from the return value (the return type has no
invalid-native-handle value). -/
theorem isLocalAudioTrackEnabled_nullHandle_false :
    (∀ isEnabled : Nat → Bool,
      mrsPeerConnectionIsLocalAudioTrackEnabled isEnabled none = (.kFalse, []))
    ∧ (mrsPeerConnectionIsLocalAudioTrackEnabled (fun _ => false) (some 0)).1 = .kFalse := by
  exact ⟨fun _ => rfl, rfl⟩

/-- The outbound RTP-stream record of the stats-join scenario. -/
def joinOutboundRtp : RTCOutboundRTPStreamStats :=
  { timestampUs := 100, kind := "audio", trackId := some "T1",
    packetsSent := 10, bytesSent := 1000, framesEncoded := 0 }

/-- The media-stream-track record of the stats-join scenario. -/
def joinTrackStats : RTCMediaStreamTrackStats :=
  { id := "T1", timestampUs := 200, trackIdentifier := "local_audio",
    kind := "audio", remoteSource := false, audioLevel := some (1/2),
    totalAudioEnergy := 3, totalSamplesDuration := 4,
    totalSamplesReceived := none, framesSent := none, hugeFramesSent := none,
    framesReceived := none, framesDropped := none }

/-- The single joined record the scenario emits. -/
def joinExpected : mrsAudioSenderStats :=
  { rtpStatsTimestampUs := 100, packetsSent := 10, bytesSent := 1000,
    trackStatsTimestampUs := 200, trackIdentifier := "local_audio",
    audioLevel := 1/2, totalAudioEnergy := 3, totalSamplesDuration := 4 }

/-- C4: for a report holding exactly one outbound-RTP record for track
"T1" (kind audio, packets_sent 10, defined track id) and one track record
with id "T1" (kind audio, not remote-source, audio_level 0.5),
`mrsStatsReportGetObjects` with kind "AudioSenderStats" emits exactly one
record, carrying packets_sent 10 and audio_level 0.5, and the result is
identical for both relative orders of the two records. -/
theorem statsJoin_firstSeenWins_bothOrders :
    mrsStatsReportGetObjects
        (some [.outboundRtp joinOutboundRtp, .track joinTrackStats])
        "AudioSenderStats"
      = (.kSuccess, [.audioSender joinExpected])
    ∧ mrsStatsReportGetObjects
        (some [.track joinTrackStats, .outboundRtp joinOutboundRtp])
        "AudioSenderStats"
      = (.kSuccess, [.audioSender joinExpected])
    ∧ joinExpected.packetsSent = 10 ∧ joinExpected.audioLevel = 1/2 := by
  refine ⟨?_, ?_, rfl, rfl⟩ <;> rfl

/-- Folding a step function over records it ignores leaves the
accumulator unchanged. -/
theorem foldl_fixed {α β : Type} (step : β → α → β) (l : List α) (init : β)
    (h : ∀ a ∈ l, ∀ b, step b a = b) : l.foldl step init = init := by
  induction l generalizing init with
  | nil => rfl
  | cons x xs ih =>
    rw [List.foldl_cons, h x (by simp)]
    exact ih init (fun a ha b => h a (by simp [ha]) b)

/-- Records the `AudioSenderStats` branch does not consume are no-ops. -/
theorem audioSenderStep_skip (s : RTCStats)
    (h : recordMatchesType "AudioSenderStats" s = false) :
    ∀ pending, audioSenderStep pending s = pending := by
  intro pending
  cases s with
  | outboundRtp o =>
    cases hid : o.trackId with
    | none => simp [audioSenderStep, hid]
    | some tid =>
      by_cases hk : o.kind = "audio"
      · simp [recordMatchesType, hid, hk] at h
      · simp [audioSenderStep, hid, hk]
  | track t =>
    by_cases hk : t.kind = "audio"
    · by_cases hr : t.remoteSource
      · simp [audioSenderStep, hk, hr]
      · simp [recordMatchesType, hk, hr] at h
    · simp [audioSenderStep, hk]
  | inboundRtp i => simp [audioSenderStep]
  | dataChannel d => simp [audioSenderStep]
  | transport tr => simp [audioSenderStep]

/-- Records the `AudioReceiverStats` branch does not consume are no-ops. -/
theorem audioReceiverStep_skip (s : RTCStats)
    (h : recordMatchesType "AudioReceiverStats" s = false) :
    ∀ pending, audioReceiverStep pending s = pending := by
  intro pending
  cases s with
  | inboundRtp i =>
    by_cases hk : i.kind = "audio"
    · simp [recordMatchesType, hk] at h
    · simp [audioReceiverStep, hk]
  | track t =>
    by_cases hk : t.kind = "audio"
    · by_cases hr : t.remoteSource
      · simp [recordMatchesType, hk, hr] at h
      · simp [audioReceiverStep, hk, hr]
    · simp [audioReceiverStep, hk]
  | outboundRtp o => simp [audioReceiverStep]
  | dataChannel d => simp [audioReceiverStep]
  | transport tr => simp [audioReceiverStep]

/-- Records the `VideoSenderStats` branch does not consume are no-ops. -/
theorem videoSenderStep_skip (s : RTCStats)
    (h : recordMatchesType "VideoSenderStats" s = false) :
    ∀ pending, videoSenderStep pending s = pending := by
  intro pending
  cases s with
  | outboundRtp o =>
    cases hid : o.trackId with
    | none => simp [videoSenderStep, hid]
    | some tid =>
      by_cases hk : o.kind = "video"
      · simp [recordMatchesType, hid, hk] at h
      · simp [videoSenderStep, hid, hk]
  | track t =>
    by_cases hk : t.kind = "video"
    · by_cases hr : t.remoteSource
      · simp [videoSenderStep, hk, hr]
      · simp [recordMatchesType, hk, hr] at h
    · simp [videoSenderStep, hk]
  | inboundRtp i => simp [videoSenderStep]
  | dataChannel d => simp [videoSenderStep]
  | transport tr => simp [videoSenderStep]

/-- Records the `VideoReceiverStats` branch does not consume are no-ops. -/
theorem videoReceiverStep_skip (s : RTCStats)
    (h : recordMatchesType "VideoReceiverStats" s = false) :
    ∀ pending, videoReceiverStep pending s = pending := by
  intro pending
  cases s with
  | inboundRtp i =>
    by_cases hk : i.kind = "video"
    · simp [recordMatchesType, hk] at h
    · simp [videoReceiverStep, hk]
  | track t =>
    by_cases hk : t.kind = "video"
    · by_cases hr : t.remoteSource
      · simp [recordMatchesType, hk, hr] at h
      · simp [videoReceiverStep, hk, hr]
    · simp [videoReceiverStep, hk]
  | outboundRtp o => simp [videoReceiverStep]
  | dataChannel d => simp [videoReceiverStep]
  | transport tr => simp [videoReceiverStep]

/-- C6: with a non-null report handle, a kind string other than the six
recognized ones yields zero callback invocations and success, and so does
a recognized kind when no record of the report matches it. -/
theorem getObjects_noMatch_success (report : List RTCStats) (statsType : String)
    (h : statsType ∉ recognizedStatsTypes
         ∨ ∀ s ∈ report, recordMatchesType statsType s = false) :
    mrsStatsReportGetObjects (some report) statsType = (.kSuccess, []) := by
  rcases h with h | h
  · simp only [recognizedStatsTypes, List.mem_cons, List.not_mem_nil,
      or_false, not_or] at h
    obtain ⟨h1, h2, h3, h4, h5, h6⟩ := h
    simp [mrsStatsReportGetObjects, h1, h2, h3, h4, h5, h6]
  · by_cases h1 : statsType = "DataChannelStats"
    · subst h1
      simp only [mrsStatsReportGetObjects]
      rw [if_pos trivial]
      refine congrArg (Prod.mk mrsResult.kSuccess) ?_
      rw [List.filterMap_eq_nil_iff]
      intro s hs
      have hm := h s hs
      cases s <;> simp_all [recordMatchesType]
    · by_cases h2 : statsType = "AudioSenderStats"
      · subst h2
        simp only [mrsStatsReportGetObjects]
        rw [if_pos trivial]
        refine congrArg (Prod.mk mrsResult.kSuccess) ?_
        rw [foldl_fixed audioSenderStep report []
          (fun a ha b => audioSenderStep_skip a (h a ha) b)]
        rfl
      · by_cases h3 : statsType = "AudioReceiverStats"
        · subst h3
          simp only [mrsStatsReportGetObjects]
          rw [if_pos trivial]
          refine congrArg (Prod.mk mrsResult.kSuccess) ?_
          rw [foldl_fixed audioReceiverStep report []
            (fun a ha b => audioReceiverStep_skip a (h a ha) b)]
          rfl
        · by_cases h4 : statsType = "VideoSenderStats"
          · subst h4
            simp only [mrsStatsReportGetObjects]
            rw [if_pos trivial]
            refine congrArg (Prod.mk mrsResult.kSuccess) ?_
            rw [foldl_fixed videoSenderStep report []
              (fun a ha b => videoSenderStep_skip a (h a ha) b)]
            rfl
          · by_cases h5 : statsType = "VideoReceiverStats"
            · subst h5
              simp only [mrsStatsReportGetObjects]
              rw [if_pos trivial]
              refine congrArg (Prod.mk mrsResult.kSuccess) ?_
              rw [foldl_fixed videoReceiverStep report []
                (fun a ha b => videoReceiverStep_skip a (h a ha) b)]
              rfl
            · by_cases h6 : statsType = "TransportStats"
              · subst h6
                simp only [mrsStatsReportGetObjects]
                rw [if_pos trivial]
                refine congrArg (Prod.mk mrsResult.kSuccess) ?_
                rw [List.filterMap_eq_nil_iff]
                intro s hs
                have hm := h s hs
                cases s <;> simp_all [recordMatchesType]
              · simp [mrsStatsReportGetObjects, h1, h2, h3, h4, h5, h6]

/-- C6 witness: an unrecognized kind string on a one-record report, and a
recognized kind on a report whose only record is of a different media
kind, both yield success with zero callback invocations. -/
theorem getObjects_noMatch_success_witness :
    mrsStatsReportGetObjects (some [.transport ⟨1, 2, 3⟩]) "BogusStats"
      = (.kSuccess, [])
    ∧ mrsStatsReportGetObjects (some [.transport ⟨1, 2, 3⟩]) "AudioSenderStats"
      = (.kSuccess, []) := by
  constructor
  · exact getObjects_noMatch_success _ _ (Or.inl (by decide))
  · exact getObjects_noMatch_success _ _ (Or.inr (by decide))

/-- An inbound RTP-stream record whose track identifier is undefined. -/
def undefinedTrackInbound : RTCInboundRTPStreamStats :=
  { timestampUs := 5, kind := "audio", trackId := none,
    packetsReceived := 3, bytesReceived := 100, framesDecoded := 0 }

/-- C3 counterexample: a report holding exactly one inbound-rtp audio
record with an undefined track identifier makes the AudioReceiverStats
branch emit one record, not zero - the receiver branches have no
`is_defined()` check, so such records are not skipped. -/
theorem inboundRtp_undefinedTrackId_notSkipped :
    (mrsStatsReportGetObjects (some [.inboundRtp undefinedTrackInbound])
        "AudioReceiverStats").2.length = 1 := rfl

/-- C3 amended: the sender branches of `mrsStatsReportGetObjects` skip an
outbound-rtp record whose track identifier is undefined (removing it from
the report changes nothing), but the receiver branches do not: an
inbound-rtp record with an undefined track identifier is processed exactly
as if its track identifier were the value-initialized empty string, and so
can contribute an output record. -/
theorem rtpUndefinedTrackId_senderSkips_receiverJoinsEmpty :
    (∀ (pre post : List RTCStats) (o : RTCOutboundRTPStreamStats),
      o.trackId = none →
      mrsStatsReportGetObjects (some (pre ++ .outboundRtp o :: post))
          "AudioSenderStats"
        = mrsStatsReportGetObjects (some (pre ++ post)) "AudioSenderStats")
    ∧ (∀ (pre post : List RTCStats) (o : RTCOutboundRTPStreamStats),
      o.trackId = none →
      mrsStatsReportGetObjects (some (pre ++ .outboundRtp o :: post))
          "VideoSenderStats"
        = mrsStatsReportGetObjects (some (pre ++ post)) "VideoSenderStats")
    ∧ (∀ (pre post : List RTCStats) (i : RTCInboundRTPStreamStats),
      mrsStatsReportGetObjects
          (some (pre ++ .inboundRtp { i with trackId := none } :: post))
          "AudioReceiverStats"
        = mrsStatsReportGetObjects
          (some (pre ++ .inboundRtp { i with trackId := some "" } :: post))
          "AudioReceiverStats")
    ∧ (∀ (pre post : List RTCStats) (i : RTCInboundRTPStreamStats),
      mrsStatsReportGetObjects
          (some (pre ++ .inboundRtp { i with trackId := none } :: post))
          "VideoReceiverStats"
        = mrsStatsReportGetObjects
          (some (pre ++ .inboundRtp { i with trackId := some "" } :: post))
          "VideoReceiverStats") := by
  refine ⟨?_, ?_, ?_, ?_⟩
  · intro pre post o ho
    simp only [mrsStatsReportGetObjects]
    rw [if_pos trivial, if_pos trivial]
    refine congrArg (Prod.mk mrsResult.kSuccess) (congrArg _ ?_)
    rw [List.foldl_append, List.foldl_append, List.foldl_cons]
    have hstep : audioSenderStep (List.foldl audioSenderStep [] pre)
        (.outboundRtp o) = List.foldl audioSenderStep [] pre := by
      simp [audioSenderStep, ho]
    rw [hstep]
  · intro pre post o ho
    simp only [mrsStatsReportGetObjects]
    rw [if_pos trivial, if_pos trivial]
    refine congrArg (Prod.mk mrsResult.kSuccess) (congrArg _ ?_)
    rw [List.foldl_append, List.foldl_append, List.foldl_cons]
    have hstep : videoSenderStep (List.foldl videoSenderStep [] pre)
        (.outboundRtp o) = List.foldl videoSenderStep [] pre := by
      simp [videoSenderStep, ho]
    rw [hstep]
  · intro pre post i
    simp only [mrsStatsReportGetObjects]
    rw [if_pos trivial, if_pos trivial]
    refine congrArg (Prod.mk mrsResult.kSuccess) (congrArg _ ?_)
    rw [List.foldl_append, List.foldl_append, List.foldl_cons, List.foldl_cons]
    have hstep : ∀ acc, audioReceiverStep acc
          (.inboundRtp { i with trackId := none })
        = audioReceiverStep acc (.inboundRtp { i with trackId := some "" }) := by
      intro acc
      simp [audioReceiverStep]
    rw [hstep]
  · intro pre post i
    simp only [mrsStatsReportGetObjects]
    rw [if_pos trivial, if_pos trivial]
    refine congrArg (Prod.mk mrsResult.kSuccess) (congrArg _ ?_)
    rw [List.foldl_append, List.foldl_append, List.foldl_cons, List.foldl_cons]
    have hstep : ∀ acc, videoReceiverStep acc
          (.inboundRtp { i with trackId := none })
        = videoReceiverStep acc (.inboundRtp { i with trackId := some "" }) := by
      intro acc
      simp [videoReceiverStep]
    rw [hstep]

/-- C3 amended, witness: dropping a trackless outbound-rtp audio record
from a singleton report leaves the AudioSenderStats output unchanged. -/
theorem rtpUndefinedTrackId_senderSkips_witness :
    mrsStatsReportGetObjects
        (some ([] ++ .outboundRtp ⟨5, "audio", none, 3, 100, 0⟩ :: []))
        "AudioSenderStats"
      = mrsStatsReportGetObjects (some ([] ++ [])) "AudioSenderStats" :=
  rtpUndefinedTrackId_senderSkips_receiverJoinsEmpty.1 [] [] _ rfl

/-- `SdpFilter`: optional codec name and optional extra-parameter string,
both C strings modelled as byte lists (`none` = null pointer). -/
structure SdpFilter where
  codecName : Option (List Nat)
  params : Option (List Nat)
  deriving DecidableEq, Repr

/-- The filtered SDP string `mrsSdpForceCodecs` builds before copying it
out: the façade's argument massaging (a null codec name becomes empty;
extra parameters are parsed only for a non-empty codec name and non-null
parameter string) around the external `SdpForceCodecs` and
`SdpParseCodecParameters` utilities, which live outside this translation
unit and are passed in as parameters. -/
def filteredSdp
    (sdpForceCodecsCore :
      List Nat → List Nat → List (List Nat × List Nat) →
      List Nat → List (List Nat × List Nat) → List Nat)
    (sdpParseCodecParameters : List Nat → List (List Nat × List Nat))
    (message : List Nat) (audioFilter videoFilter : SdpFilter) : List Nat :=
  let audioCodecName := audioFilter.codecName.getD []
  let videoCodecName := videoFilter.codecName.getD []
  let extraAudioParams :=
    if audioCodecName ≠ [] then
      match audioFilter.params with
      | some p => sdpParseCodecParameters p
      | none => []
    else []
  let extraVideoParams :=
    if videoCodecName ≠ [] then
      match videoFilter.params with
      | some p => sdpParseCodecParameters p
      | none => []
    else []
  sdpForceCodecsCore message audioCodecName extraAudioParams
    videoCodecName extraVideoParams

/-- `mrsSdpForceCodecs` (message, buffer and size pointers non-null, as
asserted by its `RTC_CHECK`s).  `bufferCapacity` is the value the in/out
size parameter holds on entry; `buffer` the bytes at the buffer pointer.
Returns the result code, the final buffer bytes, and the value written to
the size parameter. -/
def mrsSdpForceCodecs
    (sdpForceCodecsCore :
      List Nat → List Nat → List (List Nat × List Nat) →
      List Nat → List (List Nat × List Nat) → List Nat)
    (sdpParseCodecParameters : List Nat → List (List Nat × List Nat))
    (message : List Nat) (audioFilter videoFilter : SdpFilter)
    (bufferCapacity : Nat) (buffer : List Nat) :
    mrsResult × List Nat × Nat :=
  let outMessage := filteredSdp sdpForceCodecsCore sdpParseCodecParameters
    message audioFilter videoFilter
  let size := outMessage.length
  if bufferCapacity < size + 1 then (.kInvalidParameter, buffer, size + 1)
  else (.kSuccess, outMessage ++ 0 :: buffer.drop (size + 1), size + 1)

/-- C5: `mrsSdpForceCodecs` with a declared capacity smaller than the
filtered string's length plus one returns invalid-parameter, reports the
exact required size (terminating null included) through the size
parameter, and leaves the buffer bytes untouched; with sufficient
capacity it returns success, writes the null-terminated string, and
reports the same required size. -/
theorem sdpForceCodecs_probeThenRetry
    (core : List Nat → List Nat → List (List Nat × List Nat) →
      List Nat → List (List Nat × List Nat) → List Nat)
    (parse : List Nat → List (List Nat × List Nat))
    (message : List Nat) (audioFilter videoFilter : SdpFilter)
    (bufferCapacity : Nat) (buffer : List Nat) :
    (bufferCapacity
        < (filteredSdp core parse message audioFilter videoFilter).length + 1 →
      mrsSdpForceCodecs core parse message audioFilter videoFilter
          bufferCapacity buffer
        = (.kInvalidParameter, buffer,
           (filteredSdp core parse message audioFilter videoFilter).length + 1))
    ∧ ((filteredSdp core parse message audioFilter videoFilter).length + 1
        ≤ bufferCapacity →
      mrsSdpForceCodecs core parse message audioFilter videoFilter
          bufferCapacity buffer
        = (.kSuccess,
           filteredSdp core parse message audioFilter videoFilter ++ 0 ::
             buffer.drop
               ((filteredSdp core parse message audioFilter videoFilter).length + 1),
           (filteredSdp core parse message audioFilter videoFilter).length + 1)) := by
  constructor
  · intro hlt
    simp only [mrsSdpForceCodecs]
    rw [if_pos hlt]
  · intro hge
    simp only [mrsSdpForceCodecs]
    rw [if_neg (not_lt.mpr hge)]

/-- C5 witness: probing a two-byte filtered message with capacity 2 fails
with invalid-parameter and reports a required size of 3 without touching
the buffer; retrying with capacity 4 succeeds and writes the
null-terminated bytes. -/
theorem sdpForceCodecs_probeThenRetry_witness :
    mrsSdpForceCodecs (fun m _ _ _ _ => m) (fun _ => []) [65, 66]
        ⟨none, none⟩ ⟨none, none⟩ 2 [9, 9, 9, 9]
      = (.kInvalidParameter, [9, 9, 9, 9], 3)
    ∧ mrsSdpForceCodecs (fun m _ _ _ _ => m) (fun _ => []) [65, 66]
        ⟨none, none⟩ ⟨none, none⟩ 4 [9, 9, 9, 9]
      = (.kSuccess, [65, 66, 0, 9], 3) := by
  constructor
  · exact (sdpForceCodecs_probeThenRetry (fun m _ _ _ _ => m) (fun _ => [])
      [65, 66] ⟨none, none⟩ ⟨none, none⟩ 2 [9, 9, 9, 9]).1 (by decide)
  · exact (sdpForceCodecs_probeThenRetry (fun m _ _ _ _ => m) (fun _ => [])
      [65, 66] ⟨none, none⟩ ⟨none, none⟩ 4 [9, 9, 9, 9]).2 (by decide)

/-- `webrtc::VideoCaptureCapability`, the fields the selection reads. -/
structure VideoCaptureCapability where
  width : Int
  height : Int
  maxFPS : Int
  deriving DecidableEq, Repr

/-- `VideoDeviceConfiguration`: optional unique device id and the
optional width/height/framerate filter (0 = unconstrained). -/
structure VideoDeviceConfiguration where
  videoDeviceId : Option String := none
  width : Nat := 0
  height : Nat := 0
  framerate : ℚ := 0
  deriving DecidableEq, Repr

/-- `static_cast<int>(config.framerate + 0.5)`: the requested framerate
rounded to the nearest integer (truncation toward zero after adding one
half; the filter only uses it when the framerate is positive, where the
truncation is the floor). -/
def configFps (framerate : ℚ) : Int := Int.floor (framerate + 1/2)

/-- The filter of the capability loop: a capability survives when every
non-zero filter field matches it exactly, the framerate after rounding. -/
def capabilityMatches (config : VideoDeviceConfiguration)
    (cap : VideoCaptureCapability) : Bool :=
  decide ((config.width = 0 ∨ cap.width = (config.width : Int))
    ∧ (config.height = 0 ∨ cap.height = (config.height : Int))
    ∧ (config.framerate ≤ 0 ∨ cap.maxFPS = configFps config.framerate))

/-- The inner capability loop of
`BuiltinVideoCaptureDeviceTrackSource::Create` for one device.  The state
is the `(vcm, capability)` pair of shared variables: `GetCapability`
writes every fetched capability into `capability` before the filter runs;
on a passing capability the loop assigns `vcm` the result of trying to
open the device (overwriting it, null on failure) and stops at the first
successful open. -/
def capabilityLoop (config : VideoDeviceConfiguration)
    (canOpen : String → Bool) (dev : String) :
    List VideoCaptureCapability →
    Option String × VideoCaptureCapability →
    Option String × VideoCaptureCapability
  | [], st => st
  | c :: rest, (vcm, _) =>
    if capabilityMatches config c then
      if canOpen dev then (some dev, c)
      else capabilityLoop config canOpen dev rest (none, c)
    else capabilityLoop config canOpen dev rest (vcm, c)

/-- The outer device loop of the capability-filtered branch: each device
runs the capability loop on the shared state (the source has no break
after a successful open, so remaining devices still run). -/
def deviceCapabilityLoop (config : VideoDeviceConfiguration)
    (canOpen : String → Bool) :
    List (String × List VideoCaptureCapability) →
    Option String × VideoCaptureCapability →
    Option String × VideoCaptureCapability
  | [], st => st
  | (dev, caps) :: rest, st =>
    deviceCapabilityLoop config canOpen rest
      (capabilityLoop config canOpen dev caps st)

/-- The capability-filtered device-selection step of
`BuiltinVideoCaptureDeviceTrackSource::Create` (taken when any of
width/height/framerate is requested): the opened device together with the
final contents of the `capability` variable, or `none` when no matching
capability could be opened. -/
def selectFilteredCapability (config : VideoDeviceConfiguration)
    (canOpen : String → Bool)
    (devices : List (String × List VideoCaptureCapability)) :
    Option (String × VideoCaptureCapability) :=
  let st := deviceCapabilityLoop config canOpen devices (none, ⟨0, 0, 0⟩)
  match st.1 with
  | some dev => some (dev, st.2)
  | none => none

/-- The filter of the device-selection scenario: width 640, height 480,
framerate 30. -/
def filter640x480x30 : VideoDeviceConfiguration :=
  { videoDeviceId := none, width := 640, height := 480, framerate := 30 }

/-- C7: a filter requesting width 640, height 480, framerate 30 against a
device exposing capabilities 320x240@30, 640x480@30 and 640x480@60
selects exactly 640x480@30: every non-zero filter field must match
exactly, the framerate compared after rounding to the nearest integer. -/
theorem capabilityFilter_selects_640x480x30 :
    selectFilteredCapability filter640x480x30 (fun _ => true)
        [("cam0", [⟨320, 240, 30⟩, ⟨640, 480, 30⟩, ⟨640, 480, 60⟩])]
      = some ("cam0", ⟨640, 480, 30⟩) := by
  have hfps : configFps 30 = 30 := by
    rw [configFps, Int.floor_eq_iff]
    norm_num
  have hm1 : capabilityMatches filter640x480x30 ⟨320, 240, 30⟩ = false := by
    simp [capabilityMatches, filter640x480x30]
  have hm2 : capabilityMatches filter640x480x30 ⟨640, 480, 30⟩ = true := by
    simp [capabilityMatches, filter640x480x30, hfps]
  simp [selectFilteredCapability, deviceCapabilityLoop, capabilityLoop,
    hm1, hm2]

/-- `memcpy(dst + dstOff, src + srcOff, n)` between two non-overlapping
byte buffers, each modelled as a map from offset to byte value. -/
def memBlit (src : Nat → Nat) (srcOff : Nat) (dst : Nat → Nat)
    (dstOff n : Nat) : Nat → Nat :=
  fun a =>
    if dstOff ≤ a ∧ a < dstOff + n then src (srcOff + (a - dstOff)) else dst a

/-- The row-by-row branch of `mrsMemCpyStride`: copy rows of `elemSize`
bytes, advancing both pointers by their strides after each row. -/
def rowCopy (src : Nat → Nat) (srcStride dstStride elemSize : Nat) :
    Nat → Nat → Nat → (Nat → Nat) → Nat → Nat
  | 0, _, _, dst => dst
  | n + 1, srcOff, dstOff, dst =>
    rowCopy src srcStride dstStride elemSize n (srcOff + srcStride)
      (dstOff + dstStride) (memBlit src srcOff dst dstOff elemSize)

/-- `mrsMemCpyStride`: a tightly packed copy (both strides equal to the
element size) is one linear `memcpy` of `elem_size * elem_count` bytes,
anything else copies row by row. -/
def mrsMemCpyStride (dst : Nat → Nat) (dstStride : Nat) (src : Nat → Nat)
    (srcStride elemSize elemCount : Nat) : Nat → Nat :=
  if dstStride = elemSize ∧ srcStride = elemSize then
    memBlit src 0 dst 0 (elemSize * elemCount)
  else rowCopy src srcStride dstStride elemSize elemCount 0 0 dst

/-- With both strides equal to the element size, the row-by-row copy is
one contiguous blit. -/
theorem rowCopy_tight_eq_blit (src : Nat → Nat) (S : Nat) :
    ∀ (n srcOff dstOff : Nat) (dst : Nat → Nat),
      rowCopy src S S S n srcOff dstOff dst
        = memBlit src srcOff dst dstOff (S * n) := by
  intro n
  induction n with
  | zero =>
    intro srcOff dstOff dst
    funext a
    simp only [rowCopy, memBlit, Nat.mul_zero]
    rw [if_neg (by omega)]
  | succ m ih =>
    intro srcOff dstOff dst
    rw [rowCopy, ih, Nat.mul_succ]
    funext a
    simp only [memBlit]
    by_cases h1 : dstOff + S ≤ a ∧ a < dstOff + S + S * m
    · rw [if_pos h1,
        if_pos (show dstOff ≤ a ∧ a < dstOff + (S * m + S) by omega)]
      have harg : srcOff + S + (a - (dstOff + S)) = srcOff + (a - dstOff) := by
        omega
      rw [harg]
    · rw [if_neg h1]
      by_cases h3 : dstOff ≤ a ∧ a < dstOff + S
      · rw [if_pos h3,
          if_pos (show dstOff ≤ a ∧ a < dstOff + (S * m + S) by omega)]
      · rw [if_neg h3,
          if_neg (show ¬(dstOff ≤ a ∧ a < dstOff + (S * m + S)) by omega)]

/-- C8: when source and destination stride both equal the element size,
the tightly packed fast path of `mrsMemCpyStride` (one linear copy of
`elemSize * elemCount` bytes) writes exactly the bytes the general
row-by-row path writes, for every element count and size. -/
theorem memCpyStride_tightlyPacked_eq_rowByRow (dst src : Nat → Nat)
    (elemSize elemCount : Nat) :
    mrsMemCpyStride dst elemSize src elemSize elemSize elemCount
      = rowCopy src elemSize elemSize elemSize elemCount 0 0 dst := by
  unfold mrsMemCpyStride
  rw [if_pos ⟨rfl, rfl⟩, rowCopy_tight_eq_blit]
